import Mathlib

/-!
Shallow embedding of `src/transaction.rs` from `matrix-org/rust-indexed-db`:
the transaction completion protocol (the `Transaction` struct, its
`commit`/`abort` operations, the `map_result!` classifier macro, and the
`Drop` implementation), together with theorems about its behaviour.

Effectful Rust code is modelled by explicit state passing: the external
collaborators (the native `TransactionSys` primitive layer and the
`TxListeners` event bridge) are an environment record supplying the
synchronous results of `do_commit`/`abort` and the terminal notification
delivered by `recv()`, and each operation returns, besides its Rust return
value, the successor state and a trace of the native calls it issued.
-/

namespace IndexedDb

/-- The variants of `crate::error::UnexpectedDataError` referenced by
`src/transaction.rs`. -/
inductive UnexpectedDataError
  | TransactionAborted
  | TransactionCommitted
  | TransactionNotFound
  | NoEventTarget
  deriving DecidableEq, Repr

/-- The variant of `crate::error::SimpleValueError` referenced by
`src/transaction.rs` (a failed dynamic cast of an event target). -/
inductive SimpleValueError
  | DynCast
  deriving DecidableEq, Repr

/-- `crate::error::Error` as seen from `src/transaction.rs`: the structured
variants the file constructs (via `.into()`), plus `DomException` standing for
the opaque store/DOM errors that the native layer or the event bridge can
deliver (identified by a code so that equality is decidable). -/
inductive Error
  | Unexpected (e : UnexpectedDataError)
  | SimpleValue (e : SimpleValueError)
  | DomException (code : Nat)
  deriving DecidableEq, Repr

/-- `OnTransactionDrop` from `src/transaction.rs`: the drop policy. The Rust
`#[derive(Default)]` marks `Abort` as the default. -/
inductive OnTransactionDrop
  | Abort
  | Commit
  deriving DecidableEq, Repr

/-- The Rust `Default` for `OnTransactionDrop` is `Abort`
(`#[default]` on that variant). -/
def OnTransactionDrop.default : OnTransactionDrop := .Abort

/-- `TransactionResult` from `src/transaction.rs`: the terminal notification
delivered once per transaction by the listener bridge. -/
inductive TransactionResult
  | Ok
  | Err (e : Error)
  | Abort
  deriving DecidableEq, Repr

/-- Expansion of the `map_result!` macro at the call site in
`Transaction::commit`:
`map_result!(expr, ok: Ok, unexpected: Abort => TransactionAborted)`. -/
def map_result_commit : TransactionResult → Except Error Unit
  | .Ok => .ok ()
  | .Err e => .error e
  | .Abort => .error (.Unexpected .TransactionAborted)

/-- Expansion of the `map_result!` macro at the call site in
`Transaction::abort`:
`map_result!(expr, ok: Abort, unexpected: Ok => TransactionCommitted)`. -/
def map_result_abort : TransactionResult → Except Error Unit
  | .Abort => .ok ()
  | .Err e => .error e
  | .Ok => .error (.Unexpected .TransactionCommitted)

/-- The caller's declared intent: which of the two finalizing operations was
invoked. This selects which instantiation of the `map_result!` macro runs. -/
inductive Intent
  | commit
  | abort
  deriving DecidableEq, Repr

/-- The result classifier: the `map_result!` macro viewed as a single pure
function of the intent and the terminal notification. -/
def map_result : Intent → TransactionResult → Except Error Unit
  | .commit, r => map_result_commit r
  | .abort, r => map_result_abort r

/-- The state of `Transaction` from `src/transaction.rs` that the completion
protocol reads and writes: the `done` flag and the `on_drop` policy. (The
`listeners` field's only protocol-relevant effect, `free_listeners`, is
recorded in the traces below.) -/
structure Transaction where
  done : Bool
  on_drop : OnTransactionDrop
  deriving DecidableEq, Repr

/-- `Transaction::new`: `done` starts `false`, `on_drop` starts at the
default policy (`Abort`). -/
def Transaction.new : Transaction :=
  { done := false, on_drop := OnTransactionDrop.default }

/-- `Transaction::on_drop`: set the drop policy. -/
def Transaction.set_on_drop (tx : Transaction) (p : OnTransactionDrop) :
    Transaction :=
  { tx with on_drop := p }

/-- A native call issued through `TransactionSys` (`do_commit` or `abort`). -/
inductive NativeCall
  | commit
  | abort
  deriving DecidableEq, Repr

/-- The external collaborators of the protocol, as an oracle: the synchronous
results the native primitives would return if called, and the terminal
notification the listener bridge would deliver on `recv()`. -/
structure Env where
  do_commit_result : Except Error Unit
  abort_result : Except Error Unit
  recv_result : TransactionResult
  deriving Repr

/-- The observable effects and outcome of one finalizing operation
(`commit` or `abort`): the handle's state afterwards (still subject to
`Drop`), the native calls issued in order, whether `listeners.recv()` was
awaited, and the Rust return value. -/
structure FinalizeOut where
  tx : Transaction
  native_calls : List NativeCall
  awaited_recv : Bool
  result : Except Error Unit
  deriving Repr

/-- `Transaction::commit` from `src/transaction.rs`: set `done`, invoke the
native `do_commit` (propagating a synchronous failure via `?` without
awaiting), otherwise await `recv()` and classify via `map_result!`. -/
def Transaction.commit (tx : Transaction) (env : Env) : FinalizeOut :=
  let tx := { tx with done := true }
  match env.do_commit_result with
  | .error e =>
    { tx := tx, native_calls := [.commit], awaited_recv := false,
      result := .error e }
  | .ok _ =>
    { tx := tx, native_calls := [.commit], awaited_recv := true,
      result := map_result_commit env.recv_result }

/-- `Transaction::abort` from `src/transaction.rs`: set `done`, invoke the
native `abort` (propagating a synchronous failure via `?` without awaiting),
otherwise await `recv()` and classify via `map_result!`. -/
def Transaction.abort (tx : Transaction) (env : Env) : FinalizeOut :=
  let tx := { tx with done := true }
  match env.abort_result with
  | .error e =>
    { tx := tx, native_calls := [.abort], awaited_recv := false,
      result := .error e }
  | .ok _ =>
    { tx := tx, native_calls := [.abort], awaited_recv := true,
      result := map_result_abort env.recv_result }

/-- The observable effects of `Drop for Transaction`: how many times
`free_listeners` ran, and the native calls issued. `Drop` has no return
value and no error channel. -/
structure DropOut where
  free_listeners_calls : Nat
  native_calls : List NativeCall
  deriving DecidableEq, Repr

/-- `Drop for Transaction` from `src/transaction.rs`: always free the
listeners; then, only when `!self.done & matches!(self.on_drop, Abort)`,
issue a best-effort native abort whose result is discarded
(`let _ = self.as_sys().abort();`). The unused `_abort_result` parameter is
the result the native call would return; discarding it is the point. -/
def Transaction.drop (tx : Transaction) (_abort_result : Except Error Unit) :
    DropOut :=
  { free_listeners_calls := 1,
    native_calls :=
      if !tx.done && (match tx.on_drop with
        | .Abort => true
        | .Commit => false)
      then [.abort]
      else [] }

/-- The explicit finalization a caller may perform at most once (enforced in
Rust by `commit`/`abort` taking `self` by value). -/
inductive Action
  | doCommit
  | doAbort
  deriving DecidableEq, Repr

/-- The cumulative observable effects of one full handle lifetime. -/
structure LifecycleOut where
  native_calls : List NativeCall
  free_listeners_calls : Nat
  deriving DecidableEq, Repr

/-- One full lifetime of a `Transaction` handle: at most one explicit
`commit()` or `abort()` (ownership makes a second explicit call impossible
in Rust), always followed by exactly one run of `Drop` on the handle's final
state. -/
def Transaction.lifecycle (tx : Transaction) (act : Option Action)
    (env : Env) : LifecycleOut :=
  match act with
  | none =>
    let d := tx.drop env.abort_result
    { native_calls := d.native_calls,
      free_listeners_calls := d.free_listeners_calls }
  | some .doCommit =>
    let o := tx.commit env
    let d := o.tx.drop env.abort_result
    { native_calls := o.native_calls ++ d.native_calls,
      free_listeners_calls := d.free_listeners_calls }
  | some .doAbort =>
    let o := Transaction.abort tx env
    let d := o.tx.drop env.abort_result
    { native_calls := o.native_calls ++ d.native_calls,
      free_listeners_calls := d.free_listeners_calls }

/-- The target of a `web_sys::IdbVersionChangeEvent` viewed through the casts
`src/transaction.rs` performs: an `IdbOpenDbRequest` which may or may not
have an associated native transaction (`req.transaction()` is an `Option`). -/
structure IdbOpenDbRequest where
  transaction : Option Unit
  deriving DecidableEq, Repr

/-- An event target, which `dyn_ref::<IdbOpenDbRequest>()` may or may not be
able to downcast. -/
structure EventTarget where
  as_open_db_request : Option IdbOpenDbRequest
  deriving DecidableEq, Repr

/-- A `web_sys::IdbVersionChangeEvent`: `event.target()` is an `Option`. -/
structure IdbVersionChangeEvent where
  target : Option EventTarget
  deriving DecidableEq, Repr

/-- `Transaction::from_raw_version_change_event` from `src/transaction.rs`:
derive a handle from a schema-upgrade event, failing with `NoEventTarget`
when the event has no target, with `SimpleValueError::DynCast` when the
target is not an open-database request, and with `TransactionNotFound` when
the request has no associated native transaction. -/
def Transaction.from_raw_version_change_event
    (event : IdbVersionChangeEvent) : Except Error Transaction :=
  match event.target with
  | some target =>
    match target.as_open_db_request with
    | some req =>
      match req.transaction with
      | some _ => .ok Transaction.new
      | none => .error (.Unexpected .TransactionNotFound)
    | none => .error (.SimpleValue .DynCast)
  | none => .error (.Unexpected .NoEventTarget)

/-! ## Helper lemmas -/

/-- `commit` marks the handle `done` on every path, including a synchronous
native failure, while leaving the drop policy untouched. -/
theorem Transaction.commit_tx (tx : Transaction) (env : Env) :
    (tx.commit env).tx = { tx with done := true } := by
  unfold Transaction.commit
  cases env.do_commit_result <;> rfl

/-- `abort` marks the handle `done` on every path, including a synchronous
native failure, while leaving the drop policy untouched. -/
theorem Transaction.abort_tx (tx : Transaction) (env : Env) :
    (tx.abort env).tx = { tx with done := true } := by
  unfold Transaction.abort
  cases env.abort_result <;> rfl

/-- `Drop` on an already-finalized handle issues no native call. -/
theorem Transaction.drop_done (tx : Transaction) (h : tx.done = true)
    (r : Except Error Unit) : (tx.drop r).native_calls = [] := by
  simp [Transaction.drop, h]

/-- `commit` issues exactly the one native commit call. -/
theorem Transaction.commit_calls (tx : Transaction) (env : Env) :
    (tx.commit env).native_calls = [NativeCall.commit] := by
  unfold Transaction.commit
  cases env.do_commit_result <;> rfl

/-- `abort` issues exactly the one native abort call. -/
theorem Transaction.abort_calls (tx : Transaction) (env : Env) :
    (tx.abort env).native_calls = [NativeCall.abort] := by
  unfold Transaction.abort
  cases env.abort_result <;> rfl

/-! ## Claims -/

/-- Claim C1: when the native commit primitive succeeds synchronously, the
outcome of `commit()` is determined by the awaited terminal notification:
`Committed` yields `Ok(())`, `Errored(e)` yields `Err(e)` with the store
error propagated verbatim, and `Aborted` yields
`Err(UnexpectedDataError::TransactionAborted)`. -/
theorem commit_outcome_classification (tx : Transaction) (env : Env)
    (h : env.do_commit_result = .ok ()) :
    (env.recv_result = .Ok → (tx.commit env).result = .ok ())
    ∧ (∀ e : Error, env.recv_result = .Err e →
        (tx.commit env).result = .error e)
    ∧ (env.recv_result = .Abort →
        (tx.commit env).result =
          .error (.Unexpected .TransactionAborted)) := by
  refine ⟨?_, ?_, ?_⟩ <;>
    (intros
     simp_all [Transaction.commit, map_result_commit])

/-- Witness for C1 at a concrete environment. -/
theorem commit_outcome_classification_witness :
    (Transaction.new.commit
      { do_commit_result := .ok (), abort_result := .ok (),
        recv_result := .Ok }).result = .ok () :=
  (commit_outcome_classification Transaction.new
    { do_commit_result := .ok (), abort_result := .ok (),
      recv_result := .Ok } rfl).1 rfl

/-- Claim C2: when the native abort primitive succeeds synchronously, the
outcome of `abort()` classifies the awaited terminal notification
symmetrically to `commit()`: `Aborted` yields `Ok(())`, `Errored(e)` yields
`Err(e)`, and `Committed` yields
`Err(UnexpectedDataError::TransactionCommitted)`. -/
theorem abort_outcome_classification (tx : Transaction) (env : Env)
    (h : env.abort_result = .ok ()) :
    (env.recv_result = .Abort → (tx.abort env).result = .ok ())
    ∧ (∀ e : Error, env.recv_result = .Err e →
        (tx.abort env).result = .error e)
    ∧ (env.recv_result = .Ok →
        (tx.abort env).result =
          .error (.Unexpected .TransactionCommitted)) := by
  refine ⟨?_, ?_, ?_⟩ <;>
    (intros
     simp_all [Transaction.abort, map_result_abort])

/-- Witness for C2 at a concrete environment. -/
theorem abort_outcome_classification_witness :
    (Transaction.new.abort
      { do_commit_result := .ok (), abort_result := .ok (),
        recv_result := .Abort }).result = .ok () :=
  (abort_outcome_classification Transaction.new
    { do_commit_result := .ok (), abort_result := .ok (),
      recv_result := .Abort } rfl).1 rfl

/-- Claim C3, counterexample: the `done` flag does not guard `commit()` or
`abort()` themselves. `Transaction::commit` sets `done` and invokes the
native primitive unconditionally, with no check of the flag, so invoking it
on a handle whose flag is already `true` still issues a native call. (In
Rust this state is unreachable only because `commit`/`abort` consume the
handle by value; the guard is ownership, not the flag.) -/
theorem commit_not_guarded_by_flag :
    (Transaction.commit { done := true, on_drop := .Abort }
      { do_commit_result := .ok (), abort_result := .ok (),
        recv_result := .Ok }).native_calls = [NativeCall.commit] := rfl

/-- Claim C3, amended: for every handle lifetime — at most one explicit
`commit()` or `abort()` (ownership makes a second call impossible), followed
by destruction — at most one finalizing native call is ever issued. The
`done` flag guards only the destructor path: `commit()`/`abort()` set it
before any native invocation, and `Drop` never issues a native call once it
is set; the flag does not guard `commit()`/`abort()` themselves. -/
theorem lifecycle_at_most_one_native_call (tx : Transaction)
    (act : Option Action) (env : Env) :
    (tx.lifecycle act env).native_calls.length ≤ 1
    ∧ ∀ tx' : Transaction, tx'.done = true →
        ∀ r : Except Error Unit, (Transaction.drop tx' r).native_calls = [] := by
  refine ⟨?_, fun tx' h' r => Transaction.drop_done tx' h' r⟩
  match act with
  | none =>
    simp only [Transaction.lifecycle, Transaction.drop]
    split <;> simp
  | some .doCommit =>
    have hd : ((tx.commit env).tx.drop env.abort_result).native_calls = [] :=
      Transaction.drop_done _ (by simp [Transaction.commit_tx]) _
    simp [Transaction.lifecycle, Transaction.commit_calls, hd]
  | some .doAbort =>
    have hd : ((tx.abort env).tx.drop env.abort_result).native_calls = [] :=
      Transaction.drop_done _ (by simp [Transaction.abort_tx]) _
    simp [Transaction.lifecycle, Transaction.abort_calls, hd]

/-- Claim C4: the destructor's decision table. With `done = false` and
policy `Abort` (the default) it issues exactly one native abort and zero
native commits; with `done = false` and policy `Commit` it issues no native
call; with `done = true` it issues no native call regardless of policy. -/
theorem drop_decision_table (tx : Transaction) (r : Except Error Unit) :
    (tx.done = false → tx.on_drop = .Abort →
      (tx.drop r).native_calls = [NativeCall.abort])
    ∧ (tx.done = false → tx.on_drop = .Commit →
      (tx.drop r).native_calls = [])
    ∧ (tx.done = true → (tx.drop r).native_calls = []) := by
  refine ⟨?_, ?_, ?_⟩ <;>
    (intros
     simp_all [Transaction.drop])

/-- Witness for C4 at the default-policy fresh handle. -/
theorem drop_decision_table_witness :
    (Transaction.new.drop (.ok ())).native_calls = [NativeCall.abort] :=
  (drop_decision_table Transaction.new (.ok ())).1 rfl rfl

/-- Claim C5: a synchronous failure of the native primitive inside
`commit()` (respectively `abort()`) is returned to the caller immediately as
the operation's error result, and no terminal notification is awaited. -/
theorem native_failure_propagated_immediately (tx : Transaction) (env : Env)
    (e : Error) :
    (env.do_commit_result = .error e →
      (tx.commit env).result = .error e
      ∧ (tx.commit env).awaited_recv = false)
    ∧ (env.abort_result = .error e →
      (tx.abort env).result = .error e
      ∧ (tx.abort env).awaited_recv = false) := by
  constructor <;>
    (intro h
     simp_all [Transaction.commit, Transaction.abort])

/-- Witness for C5 at a concrete failing environment. -/
theorem native_failure_propagated_immediately_witness :
    (Transaction.new.commit
      { do_commit_result := .error (Error.DomException 0),
        abort_result := .ok (), recv_result := .Ok }).result
      = .error (Error.DomException 0)
    ∧ (Transaction.new.commit
      { do_commit_result := .error (Error.DomException 0),
        abort_result := .ok (), recv_result := .Ok }).awaited_recv = false :=
  (native_failure_propagated_immediately Transaction.new
    { do_commit_result := .error (Error.DomException 0),
      abort_result := .ok (), recv_result := .Ok }
    (Error.DomException 0)).1 rfl

/-- Claim C6: destruction discards any error from the best-effort native
abort. `Drop` is a total function whose output records no error and does not
depend on the native call's result at all — destruction never fails or
propagates the error. -/
theorem drop_discards_native_abort_error (tx : Transaction)
    (r r' : Except Error Unit) : tx.drop r = tx.drop r' := rfl

/-- Claim C7: the result classifier is a pure total function over the full
3×2 input space; every (intent, notification) combination returns the
tabulated outcome, so no combination is unhandled or panics. -/
theorem map_result_total_table (e : Error) :
    map_result .commit .Ok = .ok ()
    ∧ map_result .commit (.Err e) = .error e
    ∧ map_result .commit .Abort =
        .error (.Unexpected .TransactionAborted)
    ∧ map_result .abort .Abort = .ok ()
    ∧ map_result .abort (.Err e) = .error e
    ∧ map_result .abort .Ok =
        .error (.Unexpected .TransactionCommitted) :=
  ⟨rfl, rfl, rfl, rfl, rfl, rfl⟩

/-- Claim C8: constructing a handle from a schema-upgrade event whose
open-database request has no associated native transaction returns the
construction error `TransactionNotFound` (a value, not a panic — the
function is total), so the failure is surfaced at construction time. -/
theorem from_version_change_event_no_transaction (t : EventTarget)
    (req : IdbOpenDbRequest) (h1 : t.as_open_db_request = some req)
    (h2 : req.transaction = none) :
    Transaction.from_raw_version_change_event { target := some t }
      = .error (.Unexpected .TransactionNotFound) := by
  simp [Transaction.from_raw_version_change_event, h1, h2]

/-- Witness for C8 at a concrete transaction-less upgrade event. -/
theorem from_version_change_event_no_transaction_witness :
    Transaction.from_raw_version_change_event
      { target := some { as_open_db_request := some { transaction := none } } }
      = .error (.Unexpected .TransactionNotFound) :=
  from_version_change_event_no_transaction
    { as_open_db_request := some { transaction := none } }
    { transaction := none } rfl rfl

/-- Claim C9: the listener subscription is torn down exactly once per handle
lifetime, at destruction, on every branch — whether the handle was finalized
via `commit()`, via `abort()`, or dropped without explicit finalization, and
regardless of drop policy. -/
theorem teardown_exactly_once (tx : Transaction) (act : Option Action)
    (env : Env) : (tx.lifecycle act env).free_listeners_calls = 1 := by
  match act with
  | none => rfl
  | some .doCommit => rfl
  | some .doAbort => rfl

/-- Claim C10: `commit()` and `abort()` leave the handle's `done` flag set
even when the native primitive fails synchronously, so the subsequent
destruction issues no compensating native call under any drop policy. -/
theorem done_set_even_on_native_failure (tx : Transaction) (env : Env)
    (r : Except Error Unit) :
    (tx.commit env).tx.done = true
    ∧ (tx.abort env).tx.done = true
    ∧ ((tx.commit env).tx.drop r).native_calls = []
    ∧ ((tx.abort env).tx.drop r).native_calls = [] := by
  refine ⟨?_, ?_, ?_, ?_⟩ <;>
    simp [Transaction.commit_tx, Transaction.abort_tx, Transaction.drop_done]

end IndexedDb
